import Mathlib

/-!
Verification of the FastAPI microservice in `app/main.py`.

The service is a set of pure, synchronous handlers over the request input,
the process-wide configuration (version, environment, start time) and the
wall clock.  We embed each handler as a Lean function taking the
configuration, the current wall-clock reading (a rational number modelling
the value of `time.time()`) and, where the handler formats a timestamp, the
current UTC datetime as returned by `datetime.utcnow()`.  Returning normally
from a FastAPI handler produces HTTP status 200, so each embedded handler
returns its status code paired with its body.
-/

namespace AppMain

/-- Characters stripped by CPython's `str.strip()` with no argument: exactly
the code points for which `str.isspace()` holds (ASCII whitespace 9-13 and
32, the C1 controls 28-31 and 133, and the Unicode space separators). -/
def isPySpace (c : Char) : Bool :=
  (9 ≤ c.toNat && c.toNat ≤ 13) || c.toNat = 32 || (28 ≤ c.toNat && c.toNat ≤ 31) ||
    c.toNat = 133 || c.toNat = 160 || c.toNat = 5760 ||
    (8192 ≤ c.toNat && c.toNat ≤ 8202) || c.toNat = 8232 || c.toNat = 8233 ||
    c.toNat = 8239 || c.toNat = 8287 || c.toNat = 12288

/-- Python `str.upper()`, applied character by character.  `Char.toUpper`
maps the basic-latin letters `a`-`z` to `A`-`Z` and fixes everything else;
case mappings of code points outside basic latin are not modelled. -/
def pyUpper (s : String) : String :=
  ⟨s.data.map Char.toUpper⟩

/-- Python `str.strip()`: remove leading and trailing whitespace. -/
def pyStrip (s : String) : String :=
  ⟨((s.data.dropWhile isPySpace).reverse.dropWhile isPySpace).reverse⟩

/-- Python `len` on a string: the number of code points. -/
def pyLen (s : String) : Nat :=
  s.data.length

/-- Python `round(x, 2)` on the rational model of a float: the nearest
multiple of 1/100.  Exact decimal ties (where CPython rounds half to even)
are not representable as binary floats, so the tie-breaking direction of
`round` is immaterial to the model. -/
def pyRound2 (q : ℚ) : ℚ :=
  ((round (q * 100) : ℤ) : ℚ) / 100

/-- The decimal digit character for `d` (meaningful for `d < 10`). -/
def digitChar (d : Nat) : Char :=
  Char.ofNat (48 + d)

/-- Python `"%02d" % n` for the field ranges `datetime` guarantees (`n ≤ 99`). -/
def pad2 (n : Nat) : String :=
  ⟨[digitChar (n / 10 % 10), digitChar (n % 10)]⟩

/-- Python `"%04d" % n` for the field ranges `datetime` guarantees (`n ≤ 9999`). -/
def pad4 (n : Nat) : String :=
  ⟨[digitChar (n / 1000 % 10), digitChar (n / 100 % 10), digitChar (n / 10 % 10),
    digitChar (n % 10)]⟩

/-- Python `"%06d" % n` for the field ranges `datetime` guarantees (`n ≤ 999999`). -/
def pad6 (n : Nat) : String :=
  ⟨[digitChar (n / 100000 % 10), digitChar (n / 10000 % 10), digitChar (n / 1000 % 10),
    digitChar (n / 100 % 10), digitChar (n / 10 % 10), digitChar (n % 10)]⟩

/-- A naive `datetime.datetime` value as produced by `datetime.utcnow()`.
The `datetime` constructor guarantees `1 ≤ year ≤ 9999`, `1 ≤ month ≤ 12`,
`1 ≤ day ≤ 31`, `hour ≤ 23`, `minute ≤ 59`, `second ≤ 59` and
`microsecond ≤ 999999`. -/
structure PyDateTime where
  year : Nat
  month : Nat
  day : Nat
  hour : Nat
  minute : Nat
  second : Nat
  microsecond : Nat

/-- CPython `datetime.isoformat()` for a naive datetime:
`YYYY-MM-DDTHH:MM:SS` followed by `.ffffff` exactly when the microsecond
component is nonzero; a naive datetime carries no timezone suffix. -/
def isoformat (d : PyDateTime) : String :=
  pad4 d.year ++ "-" ++ pad2 d.month ++ "-" ++ pad2 d.day ++ "T" ++
    pad2 d.hour ++ ":" ++ pad2 d.minute ++ ":" ++ pad2 d.second ++
    (if d.microsecond = 0 then "" else "." ++ pad6 d.microsecond)

/-- The timestamp shape asserted by the spec: exactly
`YYYY-MM-DDTHH:MM:SS.ffffff`, with no timezone suffix.  Stated from the
spec's words, to be compared with what `isoformat` produces. -/
def specTimestampShape (s : String) : Bool :=
  match s.data with
  | [y1, y2, y3, y4, sep1, mo1, mo2, sep2, d1, d2, sepT, h1, h2, sep3, mi1, mi2,
      sep4, s1, s2, sepDot, u1, u2, u3, u4, u5, u6] =>
    y1.isDigit && y2.isDigit && y3.isDigit && y4.isDigit && (sep1 == '-') &&
      mo1.isDigit && mo2.isDigit && (sep2 == '-') && d1.isDigit && d2.isDigit &&
      (sepT == 'T') && h1.isDigit && h2.isDigit && (sep3 == ':') &&
      mi1.isDigit && mi2.isDigit && (sep4 == ':') && s1.isDigit && s2.isDigit &&
      (sepDot == '.') && u1.isDigit && u2.isDigit && u3.isDigit && u4.isDigit &&
      u5.isDigit && u6.isDigit
  | _ => false

/-- The timestamp shape `YYYY-MM-DDTHH:MM:SS` without a fractional part and
with no timezone suffix (what `isoformat` produces when the microsecond
component is zero). -/
def specTimestampShapeNoMicros (s : String) : Bool :=
  match s.data with
  | [y1, y2, y3, y4, sep1, mo1, mo2, sep2, d1, d2, sepT, h1, h2, sep3, mi1, mi2,
      sep4, s1, s2] =>
    y1.isDigit && y2.isDigit && y3.isDigit && y4.isDigit && (sep1 == '-') &&
      mo1.isDigit && mo2.isDigit && (sep2 == '-') && d1.isDigit && d2.isDigit &&
      (sepT == 'T') && h1.isDigit && h2.isDigit && (sep3 == ':') &&
      mi1.isDigit && mi2.isDigit && (sep4 == ':') && s1.isDigit && s2.isDigit
  | _ => false

/-- JSON values, for response bodies and request bodies. -/
inductive Json where
  | null
  | bool (b : Bool)
  | num (q : ℚ)
  | str (s : String)
  | arr (elems : List Json)
  | obj (fields : List (String × Json))

/-- The process-wide configuration frozen at module import:
`APP_START_TIME = time.time()`, `APP_VERSION = os.getenv("APP_VERSION",
"1.0.0")`, `ENVIRONMENT = os.getenv("ENVIRONMENT", "development")`. -/
structure ServiceConfig where
  version : String
  environment : String
  startTime : ℚ

/-- Build the configuration from the two environment variables (`none`
models an unset variable, in which case `os.getenv` yields the default). -/
def mkServiceConfig (appVersionVar environmentVar : Option String) (startTime : ℚ) :
    ServiceConfig :=
  { version := appVersionVar.getD "1.0.0"
    environment := environmentVar.getD "development"
    startTime := startTime }

/-- The `HealthResponse` pydantic model of `main.py`. -/
structure HealthResponse where
  status : String
  timestamp : String
  uptime_seconds : ℚ
  version : String
  environment : String
deriving DecidableEq

/-- The `MessageResponse` pydantic model of `main.py`. -/
structure MessageResponse where
  original : String
  processed : String
  length : Nat
  timestamp : String
deriving DecidableEq

/-- Handler of `GET /health` (`health_check` in `main.py`): uptime is
`time.time() - APP_START_TIME` rounded to 2 decimals; normal return gives
status 200. -/
def health_check (cfg : ServiceConfig) (now : ℚ) (utcnow : PyDateTime) :
    Nat × HealthResponse :=
  let uptime := now - cfg.startTime
  (200,
    { status := "healthy"
      timestamp := isoformat utcnow
      uptime_seconds := pyRound2 uptime
      version := cfg.version
      environment := cfg.environment })

/-- The body built inside the `try` block of `readiness_check`. -/
def readiness_body (utcnow : PyDateTime) : Json :=
  Json.obj [("ready", Json.bool true), ("timestamp", Json.str (isoformat utcnow))]

/-- The `try` block of `readiness_check`: it only constructs a constant
response, so it cannot raise. -/
def readiness_attempt (utcnow : PyDateTime) : Except String (Nat × Json) :=
  Except.ok (200, readiness_body utcnow)

/-- Handler of `GET /ready` (`readiness_check` in `main.py`): the `except`
branch raises `HTTPException(503, "Service not ready")`. -/
def readiness_check (utcnow : PyDateTime) : Nat × Json :=
  match readiness_attempt utcnow with
  | Except.ok r => r
  | Except.error _ => (503, Json.obj [("detail", Json.str "Service not ready")])

/-- The f-string `metrics_output` of the `metrics` handler, as a function of
the rendered uptime float and the two config strings. -/
def metrics_output (uptimeStr version environment : String) : String :=
  "# HELP app_uptime_seconds Application uptime in seconds\n# TYPE app_uptime_seconds gauge\napp_uptime_seconds " ++
    uptimeStr ++
    "\n\n# HELP app_info Application information\n# TYPE app_info gauge\napp_info\x7bversion=\"" ++
    version ++ "\",environment=\"" ++ environment ++ "\"\x7d 1\n"

/-- Handler of `GET /metrics` (`metrics` in `main.py`).  `renderFloat`
models Python's float-to-string conversion inside the f-string.  The body
is passed as `content` of a `JSONResponse`, i.e. the text is serialized as
a JSON string rather than sent as a raw `text/plain` body. -/
def metrics_endpoint (cfg : ServiceConfig) (now : ℚ) (renderFloat : ℚ → String) :
    Nat × Json :=
  let uptime := now - cfg.startTime
  (200, Json.str (metrics_output (renderFloat uptime) cfg.version cfg.environment))

/-- Pydantic validation of the request body against `MessageRequest`
(`message: str`, required).  Modelled from the spec: the FastAPI/pydantic
validation layer is a dependency not present under `src/`; per the spec a
body whose `message` field is absent or not a string is rejected before the
handler runs. -/
def parse_message_request (body : Json) : Option String :=
  match body with
  | Json.obj fields =>
    match fields.lookup "message" with
    | some (Json.str s) => some s
    | _ => none
  | _ => none

/-- The `try` block of `process_message`: `processed =
original_message.upper().strip()`; its operations are total, so it cannot
raise. -/
def process_attempt (msg : String) (utcnow : PyDateTime) :
    Except String MessageResponse :=
  Except.ok
    { original := msg
      processed := pyStrip (pyUpper msg)
      length := pyLen (pyStrip (pyUpper msg))
      timestamp := isoformat utcnow }

/-- Outcome of the `process_message` handler body. -/
inductive ProcessResult where
  | success (r : MessageResponse)
  | failure (status : Nat) (detail : String)
deriving DecidableEq

/-- The `except Exception` clause of `process_message`: any fault is
replaced by `HTTPException(500, "Internal server error")`; the exception
value itself is only logged, never returned. -/
def handle_process_fault : Except String MessageResponse → ProcessResult
  | Except.ok r => ProcessResult.success r
  | Except.error _ => ProcessResult.failure 500 "Internal server error"

/-- Handler of `POST /api/process` after validation (`process_message` in
`main.py`). -/
def process_message (msg : String) (utcnow : PyDateTime) : ProcessResult :=
  handle_process_fault (process_attempt msg utcnow)

/-- The `POST /api/process` route end to end: pydantic validation (422 on failure),
then the handler. -/
def api_process (body : Json) (utcnow : PyDateTime) : Nat × Option MessageResponse :=
  match parse_message_request body with
  | none => (422, none)
  | some msg =>
    match process_message msg utcnow with
    | ProcessResult.success r => (200, some r)
    | ProcessResult.failure s _ => (s, none)

/-- Handler of `GET /` (`root` in `main.py`). -/
def root_endpoint (cfg : ServiceConfig) : Nat × Json :=
  (200, Json.obj
    [("message", Json.str "Welcome to DevOps Pipeline Demo API"),
     ("version", Json.str cfg.version),
     ("docs", Json.str "/docs"),
     ("health", Json.str "/health")])

/-- The `endpoints` map returned by `app_info`. -/
def endpoints_map : Json :=
  Json.obj
    [("health", Json.str "/health"),
     ("ready", Json.str "/ready"),
     ("metrics", Json.str "/metrics"),
     ("docs", Json.str "/docs"),
     ("process", Json.str "/api/process")]

/-- Handler of `GET /api/info` (`app_info` in `main.py`); `pythonVersion`
models `os.sys.version`. -/
def app_info_endpoint (cfg : ServiceConfig) (now : ℚ) (pythonVersion : String) :
    Nat × Json :=
  (200, Json.obj
    [("application", Json.str "DevOps Pipeline Demo API"),
     ("version", Json.str cfg.version),
     ("environment", Json.str cfg.environment),
     ("uptime_seconds", Json.num (pyRound2 (now - cfg.startTime))),
     ("python_version", Json.str pythonVersion),
     ("endpoints", endpoints_map)])

end AppMain

namespace AppMain

/-- No character in the basic-latin upper-case range `65..122` is Python
whitespace. -/
theorem isPySpace_eq_false_of_letter (c : Char) (h1 : 65 ≤ c.toNat)
    (h2 : c.toNat ≤ 122) : isPySpace c = false := by
  simp only [isPySpace, Bool.or_eq_false_iff, Bool.and_eq_false_iff,
    decide_eq_false_iff_not]
  omega

/-- Upper-casing a character neither creates nor destroys whitespace. -/
theorem isPySpace_toUpper (c : Char) : isPySpace c.toUpper = isPySpace c := by
  simp only [Char.toUpper]
  split
  · rename_i h
    rw [isPySpace_eq_false_of_letter c (by omega) h.2]
    have hlb : 65 ≤ c.toNat - 32 := by omega
    have hub : c.toNat - 32 ≤ 90 := by omega
    generalize c.toNat - 32 = m at hlb hub
    interval_cases m <;> decide
  · rfl

/-- Composition form of whitespace invariance under upper-casing. -/
theorem isPySpace_comp_toUpper : (isPySpace ∘ Char.toUpper) = isPySpace :=
  funext isPySpace_toUpper

/-- Trimming after upper-casing agrees with upper-casing after trimming. -/
theorem pyStrip_pyUpper_comm (s : String) :
    pyStrip (pyUpper s) = pyUpper (pyStrip s) := by
  apply String.ext
  show (((s.data.map Char.toUpper).dropWhile isPySpace).reverse.dropWhile
      isPySpace).reverse =
    (((s.data.dropWhile isPySpace).reverse.dropWhile isPySpace).reverse).map
      Char.toUpper
  simp only [List.dropWhile_map, isPySpace_comp_toUpper, ← List.map_reverse]

end AppMain

namespace AppMain

/-- C1: every string `message` accepted by `POST /api/process` yields status
200 with `original = message` unchanged, `processed = trim(uppercase(message))`
(which agrees with `uppercase(trim(message))`), and `length` the character
count of `processed`; in particular `"hello world"` gives `"HELLO WORLD"`
with length 11, `""` gives `""` with length 0, and `"  test message  "`
gives `"TEST MESSAGE"`. -/
theorem c1_process_transform :
    (∀ (msg : String) (d : PyDateTime),
      api_process (Json.obj [("message", Json.str msg)]) d =
        (200, some
          { original := msg
            processed := pyStrip (pyUpper msg)
            length := pyLen (pyStrip (pyUpper msg))
            timestamp := isoformat d })) ∧
    (∀ msg : String, pyStrip (pyUpper msg) = pyUpper (pyStrip msg)) ∧
    pyStrip (pyUpper "hello world") = "HELLO WORLD" ∧
    pyLen (pyStrip (pyUpper "hello world")) = 11 ∧
    pyStrip (pyUpper "") = "" ∧
    pyLen (pyStrip (pyUpper "")) = 0 ∧
    pyStrip (pyUpper "  test message  ") = "TEST MESSAGE" :=
  ⟨fun _ _ => rfl, pyStrip_pyUpper_comm, by decide, by decide, rfl, rfl, by decide⟩

/-- C2: `GET /health` always returns status 200, a body whose `status`
field is `"healthy"`, whose `version` and `environment` fields are the
config values, and whose uptime is `now - startTime` rounded to 2 decimal
places. -/
theorem c2_health_response (cfg : ServiceConfig) (now : ℚ) (d : PyDateTime) :
    (health_check cfg now d).1 = 200 ∧
    (health_check cfg now d).2.status = "healthy" ∧
    (health_check cfg now d).2.version = cfg.version ∧
    (health_check cfg now d).2.environment = cfg.environment ∧
    (health_check cfg now d).2.uptime_seconds = pyRound2 (now - cfg.startTime) :=
  ⟨rfl, rfl, rfl, rfl, rfl⟩

/-- C6: `GET /ready` always returns status 200 with body
`(ready = true, timestamp present)`; the `try` block succeeds on every
input, so the 503 "Service not ready" branch is unreachable. -/
theorem c6_ready_always_ok (d : PyDateTime) :
    readiness_check d =
      (200, Json.obj [("ready", Json.bool true),
        ("timestamp", Json.str (isoformat d))]) ∧
    readiness_attempt d =
      Except.ok (200, Json.obj [("ready", Json.bool true),
        ("timestamp", Json.str (isoformat d))]) :=
  ⟨rfl, rfl⟩

/-- C9: for every string `message` the body of the `/api/process` handler
is total — it always produces a success, so the caught-fault branch is
unreachable; and were a fault intercepted, the `except` clause would map it
to 500 with the generic detail `"Internal server error"`, independent of
the exception's content. -/
theorem c9_process_no_fault (msg : String) (d : PyDateTime) :
    process_attempt msg d =
      Except.ok
        { original := msg
          processed := pyStrip (pyUpper msg)
          length := pyLen (pyStrip (pyUpper msg))
          timestamp := isoformat d } ∧
    process_message msg d =
      ProcessResult.success
        { original := msg
          processed := pyStrip (pyUpper msg)
          length := pyLen (pyStrip (pyUpper msg))
          timestamp := isoformat d } ∧
    (∀ e : String, handle_process_fault (Except.error e) =
      ProcessResult.failure 500 "Internal server error") :=
  ⟨rfl, rfl, fun _ => rfl⟩

end AppMain

namespace AppMain

/-- Rounding to 2 decimals is monotone. -/
theorem pyRound2_mono {a b : ℚ} (h : a ≤ b) : pyRound2 a ≤ pyRound2 b := by
  unfold pyRound2
  have hr : round (a * 100) ≤ round (b * 100) := by
    rw [round_eq, round_eq]
    exact Int.floor_le_floor (by linarith)
  exact (div_le_div_right (by norm_num : (0:ℚ) < 100)).mpr (by exact_mod_cast hr)

/-- Rounding to 2 decimals is strictly monotone across a gap of 1/100. -/
theorem pyRound2_strict {a b : ℚ} (h : a + 1 / 100 ≤ b) :
    pyRound2 a < pyRound2 b := by
  unfold pyRound2
  have hr : round (a * 100) + 1 ≤ round (b * 100) := by
    have hstep : round (a * 100 + 1) ≤ round (b * 100) := by
      rw [round_eq, round_eq]
      exact Int.floor_le_floor (by linarith)
    simpa using hstep
  have hcast : ((round (a * 100) : ℤ) : ℚ) < ((round (b * 100) : ℤ) : ℚ) := by
    exact_mod_cast (by omega : round (a * 100) < round (b * 100))
  exact (div_lt_div_right (by norm_num : (0:ℚ) < 100)).mpr hcast

/-- C5 counterexample: with start time 0, moving the wall clock from
0.001 s to 0.002 s is a positive advance, yet `/health` reports the same
`uptimeSeconds` for both calls, because both round to 0.00. -/
theorem c5_counterexample :
    (1 : ℚ) / 1000 < 2 / 1000 ∧
    (health_check (mkServiceConfig none none 0) (1 / 1000)
        ⟨2024, 1, 1, 0, 0, 0, 0⟩).2.uptime_seconds =
      (health_check (mkServiceConfig none none 0) (2 / 1000)
        ⟨2024, 1, 1, 0, 0, 0, 0⟩).2.uptime_seconds := by
  constructor
  · norm_num
  · show pyRound2 (1 / 1000 - 0) = pyRound2 (2 / 1000 - 0)
    unfold pyRound2
    norm_num [round_eq]

/-- C5 (amended): within one process lifetime the `uptimeSeconds` reported
by `/health` never decreases as the wall clock advances, and strictly
increases whenever the wall clock advances by at least 0.01 s between the
two calls. -/
theorem c5_uptime_monotone (cfg : ServiceConfig) (d1 d2 : PyDateTime)
    (now1 now2 : ℚ) :
    (now1 ≤ now2 →
      (health_check cfg now1 d1).2.uptime_seconds ≤
        (health_check cfg now2 d2).2.uptime_seconds) ∧
    (now1 + 1 / 100 ≤ now2 →
      (health_check cfg now1 d1).2.uptime_seconds <
        (health_check cfg now2 d2).2.uptime_seconds) := by
  constructor
  · intro h
    exact pyRound2_mono (by linarith)
  · intro h
    exact pyRound2_strict (by linarith)

/-- Witness for the amended C5, at start time 0 and clock readings 0 and 1. -/
theorem c5_uptime_monotone_witness :
    (health_check (mkServiceConfig none none 0) 0
        ⟨2024, 1, 1, 0, 0, 0, 0⟩).2.uptime_seconds ≤
      (health_check (mkServiceConfig none none 0) 1
        ⟨2024, 1, 1, 0, 0, 0, 0⟩).2.uptime_seconds ∧
    (health_check (mkServiceConfig none none 0) 0
        ⟨2024, 1, 1, 0, 0, 0, 0⟩).2.uptime_seconds <
      (health_check (mkServiceConfig none none 0) 1
        ⟨2024, 1, 1, 0, 0, 0, 0⟩).2.uptime_seconds :=
  ⟨(c5_uptime_monotone (mkServiceConfig none none 0) ⟨2024, 1, 1, 0, 0, 0, 0⟩
      ⟨2024, 1, 1, 0, 0, 0, 0⟩ 0 1).1 (by norm_num),
   (c5_uptime_monotone (mkServiceConfig none none 0) ⟨2024, 1, 1, 0, 0, 0, 0⟩
      ⟨2024, 1, 1, 0, 0, 0, 0⟩ 0 1).2 (by norm_num)⟩

/-- C7: the configuration is built once from the two environment variables
with defaults `"1.0.0"` and `"development"`, and every handler only reads
it: the `version`/`environment` data in the responses of `/`, `/health`,
`/metrics` and `/api/info` equal the config values at every request, hence
coincide across all requests of one process lifetime. -/
theorem c7_config_immutable :
    (∀ t0 : ℚ, mkServiceConfig none none t0 =
      { version := "1.0.0", environment := "development", startTime := t0 }) ∧
    (∀ (v e : String) (t0 : ℚ), mkServiceConfig (some v) (some e) t0 =
      { version := v, environment := e, startTime := t0 }) ∧
    (∀ (cfg : ServiceConfig) (now : ℚ) (d : PyDateTime),
      (health_check cfg now d).2.version = cfg.version ∧
      (health_check cfg now d).2.environment = cfg.environment) ∧
    (∀ cfg : ServiceConfig, root_endpoint cfg =
      (200, Json.obj
        [("message", Json.str "Welcome to DevOps Pipeline Demo API"),
         ("version", Json.str cfg.version),
         ("docs", Json.str "/docs"),
         ("health", Json.str "/health")])) ∧
    (∀ (cfg : ServiceConfig) (now : ℚ) (render : ℚ → String),
      (metrics_endpoint cfg now render).2 =
        Json.str (metrics_output (render (now - cfg.startTime)) cfg.version
          cfg.environment)) ∧
    (∀ (cfg : ServiceConfig) (now : ℚ) (pv : String),
      (app_info_endpoint cfg now pv).2 =
        Json.obj
          [("application", Json.str "DevOps Pipeline Demo API"),
           ("version", Json.str cfg.version),
           ("environment", Json.str cfg.environment),
           ("uptime_seconds", Json.num (pyRound2 (now - cfg.startTime))),
           ("python_version", Json.str pv),
           ("endpoints", endpoints_map)]) :=
  ⟨fun _ => rfl, fun _ _ _ => rfl, fun _ _ _ => ⟨rfl, rfl⟩, fun _ => rfl,
   fun _ _ _ => rfl, fun _ _ _ => rfl⟩

/-- C10: `/metrics` interpolates the raw, unrounded uptime `now - startTime`
into its gauge line, while `/health` and `/api/info` round their uptime to
2 decimal places; at clock advance 0.001 s the raw value is positive while
the rounded value is 0, so the two reports differ. -/
theorem c10_metrics_uptime_unrounded :
    (∀ (cfg : ServiceConfig) (now : ℚ) (render : ℚ → String),
      (metrics_endpoint cfg now render).2 =
        Json.str (metrics_output (render (now - cfg.startTime)) cfg.version
          cfg.environment)) ∧
    (∀ (cfg : ServiceConfig) (now : ℚ) (d : PyDateTime),
      (health_check cfg now d).2.uptime_seconds = pyRound2 (now - cfg.startTime)) ∧
    (∀ (cfg : ServiceConfig) (now : ℚ) (pv : String),
      (app_info_endpoint cfg now pv).2 =
        Json.obj
          [("application", Json.str "DevOps Pipeline Demo API"),
           ("version", Json.str cfg.version),
           ("environment", Json.str cfg.environment),
           ("uptime_seconds", Json.num (pyRound2 (now - cfg.startTime))),
           ("python_version", Json.str pv),
           ("endpoints", endpoints_map)]) ∧
    pyRound2 (1 / 1000) = 0 ∧ (0 : ℚ) < 1 / 1000 := by
  refine ⟨fun _ _ _ => rfl, fun _ _ _ => rfl, fun _ _ _ => rfl, ?_, by norm_num⟩
  unfold pyRound2
  norm_num [round_eq]

end AppMain

namespace AppMain

/-- C3: `POST /api/process` answers 422 exactly when the request body has
no string `message` field (the validation failure precedes the handler);
`de facto` the body `(empty object)` yields 422, and any body carrying a
string `message` field yields 200. -/
theorem c3_validation_422 (body : Json) (d : PyDateTime) :
    ((api_process body d).1 = 422 ↔
      ¬ ∃ (fields : List (String × Json)) (s : String),
        body = Json.obj fields ∧ fields.lookup "message" = some (Json.str s)) ∧
    (api_process (Json.obj []) d).1 = 422 ∧
    (∀ (fields : List (String × Json)) (s : String),
      fields.lookup "message" = some (Json.str s) →
      (api_process (Json.obj fields) d).1 = 200) := by
  refine ⟨?_, rfl, ?_⟩
  · cases body with
    | obj fields =>
      simp only [api_process, parse_message_request, process_message,
        process_attempt, handle_process_fault]
      cases h : fields.lookup "message" with
      | none => simp [h]
      | some j => cases j <;> simp [h]
    | null => simp [api_process, parse_message_request]
    | bool b => simp [api_process, parse_message_request]
    | num q => simp [api_process, parse_message_request]
    | str s => simp [api_process, parse_message_request]
    | arr xs => simp [api_process, parse_message_request]
  · intro fields s h
    simp [api_process, parse_message_request, h, process_message,
      process_attempt, handle_process_fault]

/-- Witness for C3: a concrete body with a string `message` gets 200, and
the concrete empty object gets 422. -/
theorem c3_validation_422_witness :
    (api_process (Json.obj [("message", Json.str "hi")])
      ⟨2024, 1, 1, 0, 0, 0, 0⟩).1 = 200 ∧
    (api_process (Json.obj []) ⟨2024, 1, 1, 0, 0, 0, 0⟩).1 = 422 :=
  ⟨(c3_validation_422 (Json.obj [("message", Json.str "hi")])
      ⟨2024, 1, 1, 0, 0, 0, 0⟩).2.2 [("message", Json.str "hi")] "hi" rfl,
   (c3_validation_422 (Json.obj []) ⟨2024, 1, 1, 0, 0, 0, 0⟩).2.1⟩

end AppMain

namespace AppMain

set_option maxRecDepth 4000

/-- C4: `GET /metrics` always returns status 200; its body is the
Prometheus exposition text carried as the content of a JSON response (a
string serialized as JSON, not a true `text/plain` body); the text contains
the substring `app_uptime_seconds` — the gauge whose value is the raw
current uptime — and the substring
`app_info(version="<v>",environment="<e>") 1` built from the config's
version and environment labels. -/
theorem c4_metrics_exposition (cfg : ServiceConfig) (now : ℚ)
    (render : ℚ → String) :
    (metrics_endpoint cfg now render).1 = 200 ∧
    (metrics_endpoint cfg now render).2 =
      Json.str (metrics_output (render (now - cfg.startTime)) cfg.version
        cfg.environment) ∧
    (∃ l r : List Char,
      (metrics_output (render (now - cfg.startTime)) cfg.version
          cfg.environment).data =
        l ++ ("app_uptime_seconds" : String).data ++ r) ∧
    (∃ l r : List Char,
      (metrics_output (render (now - cfg.startTime)) cfg.version
          cfg.environment).data =
        l ++ ("app_info\x7bversion=\"" ++ cfg.version ++ "\",environment=\"" ++
          cfg.environment ++ "\"\x7d 1" : String).data ++ r) := by
  refine ⟨rfl, rfl, ?_, ?_⟩
  · refine ⟨("# HELP " : String).data,
      ((" Application uptime in seconds\n# TYPE app_uptime_seconds gauge\napp_uptime_seconds " : String) ++
        render (now - cfg.startTime) ++
        ("\n\n# HELP app_info Application information\n# TYPE app_info gauge\napp_info\x7bversion=\"" : String) ++
        cfg.version ++ ("\",environment=\"" : String) ++ cfg.environment ++
        ("\"\x7d 1\n" : String)).data, ?_⟩
    simp only [metrics_output, String.data_append, List.append_assoc,
      List.cons_append, List.nil_append]
  · refine ⟨(("# HELP app_uptime_seconds Application uptime in seconds\n# TYPE app_uptime_seconds gauge\napp_uptime_seconds " : String) ++
        render (now - cfg.startTime) ++
        ("\n\n# HELP app_info Application information\n# TYPE app_info gauge\n" : String)).data,
      ("\n" : String).data, ?_⟩
    simp only [metrics_output, String.data_append, List.append_assoc,
      List.cons_append, List.nil_append]

end AppMain

namespace AppMain

/-- A digit produced by `% 10` always prints as a digit character. -/
theorem isDigit_digitChar_mod (n : Nat) : (digitChar (n % 10)).isDigit = true := by
  have h : n % 10 < 10 := Nat.mod_lt _ (by norm_num)
  revert h
  generalize n % 10 = m
  intro h
  interval_cases m <;> decide

/-- C8 counterexample: at the instant 2024-01-01 00:00:00.000000 UTC — a
possible clock value, with microsecond component zero — the timestamp
returned by `/health` is `2024-01-01T00:00:00`, which does not have the
claimed `YYYY-MM-DDTHH:MM:SS.ffffff` shape (the fractional part is
omitted). -/
theorem c8_counterexample :
    (health_check (mkServiceConfig none none 0) 0
        ⟨2024, 1, 1, 0, 0, 0, 0⟩).2.timestamp = "2024-01-01T00:00:00" ∧
    specTimestampShape "2024-01-01T00:00:00" = false := by
  constructor
  · show isoformat ⟨2024, 1, 1, 0, 0, 0, 0⟩ = "2024-01-01T00:00:00"
    decide
  · decide

/-- C8 (amended): every `timestamp` field produced by the handlers is
`isoformat` of the current UTC datetime, and for every datetime within the
`datetime` invariant ranges this string has the exact shape
`YYYY-MM-DDTHH:MM:SS.ffffff` when the microsecond component is nonzero and
`YYYY-MM-DDTHH:MM:SS` when it is zero — in both cases with no timezone
suffix. -/
theorem c8_timestamp_format (d : PyDateTime) (hy1 : 1 ≤ d.year)
    (hy2 : d.year ≤ 9999) (hmo1 : 1 ≤ d.month) (hmo2 : d.month ≤ 12)
    (hd1 : 1 ≤ d.day) (hd2 : d.day ≤ 31) (hh : d.hour ≤ 23)
    (hmi : d.minute ≤ 59) (hs : d.second ≤ 59) (hus : d.microsecond ≤ 999999) :
    (∀ (cfg : ServiceConfig) (now : ℚ),
      (health_check cfg now d).2.timestamp = isoformat d) ∧
    (readiness_body d =
      Json.obj [("ready", Json.bool true),
        ("timestamp", Json.str (isoformat d))]) ∧
    (∀ msg : String, process_attempt msg d =
      Except.ok
        { original := msg
          processed := pyStrip (pyUpper msg)
          length := pyLen (pyStrip (pyUpper msg))
          timestamp := isoformat d }) ∧
    (d.microsecond ≠ 0 → specTimestampShape (isoformat d) = true) ∧
    (d.microsecond = 0 → specTimestampShapeNoMicros (isoformat d) = true) := by
  refine ⟨fun _ _ => rfl, rfl, fun _ => rfl, ?_, ?_⟩
  · intro hne
    have hiso : isoformat d = ⟨[digitChar (d.year / 1000 % 10),
        digitChar (d.year / 100 % 10), digitChar (d.year / 10 % 10),
        digitChar (d.year % 10), '-', digitChar (d.month / 10 % 10),
        digitChar (d.month % 10), '-', digitChar (d.day / 10 % 10),
        digitChar (d.day % 10), 'T', digitChar (d.hour / 10 % 10),
        digitChar (d.hour % 10), ':', digitChar (d.minute / 10 % 10),
        digitChar (d.minute % 10), ':', digitChar (d.second / 10 % 10),
        digitChar (d.second % 10), '.', digitChar (d.microsecond / 100000 % 10),
        digitChar (d.microsecond / 10000 % 10), digitChar (d.microsecond / 1000 % 10),
        digitChar (d.microsecond / 100 % 10), digitChar (d.microsecond / 10 % 10),
        digitChar (d.microsecond % 10)]⟩ := by
      unfold isoformat
      rw [if_neg hne]
      rfl
    rw [hiso]
    simp [specTimestampShape, isDigit_digitChar_mod]
  · intro hz
    have hiso : isoformat d = ⟨[digitChar (d.year / 1000 % 10),
        digitChar (d.year / 100 % 10), digitChar (d.year / 10 % 10),
        digitChar (d.year % 10), '-', digitChar (d.month / 10 % 10),
        digitChar (d.month % 10), '-', digitChar (d.day / 10 % 10),
        digitChar (d.day % 10), 'T', digitChar (d.hour / 10 % 10),
        digitChar (d.hour % 10), ':', digitChar (d.minute / 10 % 10),
        digitChar (d.minute % 10), ':', digitChar (d.second / 10 % 10),
        digitChar (d.second % 10)]⟩ := by
      unfold isoformat
      rw [if_pos hz]
      rfl
    rw [hiso]
    simp [specTimestampShapeNoMicros, isDigit_digitChar_mod]

/-- Witness for the amended C8, at the instants 2024-01-02 03:04:05.000006
(nonzero microsecond) and 2024-01-01 00:00:00.000000 (zero microsecond). -/
theorem c8_timestamp_format_witness :
    specTimestampShape (isoformat ⟨2024, 1, 2, 3, 4, 5, 6⟩) = true ∧
    specTimestampShapeNoMicros (isoformat ⟨2024, 1, 1, 0, 0, 0, 0⟩) = true :=
  ⟨(c8_timestamp_format ⟨2024, 1, 2, 3, 4, 5, 6⟩ (by decide) (by decide)
      (by decide) (by decide) (by decide) (by decide) (by decide) (by decide)
      (by decide) (by decide)).2.2.2.1 (by decide),
   (c8_timestamp_format ⟨2024, 1, 1, 0, 0, 0, 0⟩ (by decide) (by decide)
      (by decide) (by decide) (by decide) (by decide) (by decide) (by decide)
      (by decide) (by decide)).2.2.2.2 rfl⟩

end AppMain
